import Mathlib

/-!
Verification of the async-client generator's remote `FunctionDefTransformer`
(`tools/async_client_generator/transformers/remote/function_def_transformer.py`).

The Python transformer walks the method definitions of the synchronous client
class and, per method name and policy (`keep_sync`, `exclude_methods`,
`async_methods`), excludes, overrides (`__init__`, `close`), keeps synchronous
or converts each method.  We embed the relevant fragment of the Python `ast`
node language, the transformer's functions, and a small operational semantics
for the generated shutdown body.
-/

namespace AsyncGen

/-- Literal constants, mirroring `ast.Constant` values used by the code. -/
inductive Lit where
  | str (s : String)
  | int (n : Int)
  | bool (b : Bool)
  | none
deriving DecidableEq, Repr

mutual
/-- Expressions: the fragment of the Python `ast` expression language that the
transformer's inputs and its generated shutdown template use. -/
inductive Expr where
  | Name (id : String)
  | Attribute (obj : Expr) (attr : String)
  | Constant (l : Lit)
  | Call (f : Expr) (args : ExprList) (kwargs : KwargList)
  | Await (e : Expr)
  | BoolAnd (a b : Expr)
  | IsNot (a b : Expr)
deriving DecidableEq

/-- A list of argument expressions (inlined to keep the family mutual). -/
inductive ExprList where
  | nil
  | cons (e : Expr) (tl : ExprList)
deriving DecidableEq

/-- A list of keyword arguments `key=value`. -/
inductive KwargList where
  | nil
  | cons (key : String) (value : Expr) (tl : KwargList)
deriving DecidableEq
end

/-- Assignment targets.  `ast.Attribute` is the only target kind carrying an
`attr` field (`hasattr(target, "attr")` in the Python code). -/
inductive Target where
  | Name (id : String)
  | Attribute (obj : Expr) (attr : String)
  | Subscript (obj : Expr) (idx : Expr)
deriving DecidableEq

mutual
/-- Statements: the fragment of the Python `ast` statement language appearing
in constructor bodies and in the generated shutdown template.  A `Try` carries
its protected block and an ordered sequence of (error-kind, handler block)
pairs. -/
inductive Stmt where
  | Assign (targets : List Target) (value : Expr)
  | AnnAssign (target : Target) (ann : Expr) (value : Option Expr)
  | ExprStmt (e : Expr)
  | Try (body : StmtList) (handlers : HandlerList)
  | If (cond : Expr) (thenB : StmtList) (elseB : StmtList)
  | Pass
deriving DecidableEq

/-- A nested block of statements. -/
inductive StmtList where
  | nil
  | cons (s : Stmt) (tl : StmtList)
deriving DecidableEq

/-- The `except` handlers of a `Try`: exception-kind name plus handler block. -/
inductive HandlerList where
  | nil
  | cons (kind : String) (body : StmtList) (tl : HandlerList)
deriving DecidableEq
end

/-- A method definition (`ast.FunctionDef` / `ast.AsyncFunctionDef`): its name,
whether its signature is in suspending (`async def`) form, and its body. -/
structure FunctionDef where
  name : String
  is_async : Bool
  body : List Stmt
deriving DecidableEq

/-- A class definition: an ordered sequence of method definitions. -/
structure ClassDef where
  body : List FunctionDef
deriving DecidableEq

/-- The transformer's policy state: `keep_sync` (held by the base class),
`exclude_methods` and `async_methods` (held by the remote subclass), all
plain lists of method names defaulting to `[]`. -/
structure Policy where
  keep_sync : List String
  exclude_methods : List String
  async_methods : List String
deriving DecidableEq

/-- Python's substring test `"aio" in s`. -/
def containsAio (s : String) : Bool :=
  decide (List.IsInfix "aio".toList s.toList)

/-- `RemoteFunctionDefTransformer._keep_sync`:
`return name in self.keep_sync or name not in self.async_methods`. -/
def keepSyncB (p : Policy) (name : String) : Bool :=
  name ∈ p.keep_sync || name ∉ p.async_methods

/-- The condition under which `override_init` collects a statement into
`kick_assignments`: a plain `Assign` with some `Attribute` target whose
`attr` contains `"aio"`, or an `AnnAssign` whose target is an `Attribute`
(the only target kind with an `attr` field) containing `"aio"`. -/
def isKickAssignment : Stmt → Bool
  | .Assign targets _ =>
      targets.any fun t =>
        match t with
        | .Attribute _ a => containsAio a
        | _ => false
  | .AnnAssign t _ _ =>
      match t with
      | .Attribute _ a => containsAio a
      | _ => false
  | _ => false

/-- The `kick_assignments` list collected by `override_init`'s loop over the
constructor body (a statement is appended when `isKickAssignment` holds of
it; duplicate appends for multi-target assignments do not affect the later
membership test). -/
def kickAssignments (body : List Stmt) : List Stmt :=
  body.filter isKickAssignment

/-- `RemoteFunctionDefTransformer.override_init`: collect `kick_assignments`
from the constructor body, then keep the statements not in that list
(`sync_node.body = [node for node in sync_node.body if node not in kick_assignments]`). -/
def override_init (sync_node : FunctionDef) : FunctionDef :=
  { sync_node with
    body := sync_node.body.filter
      (fun node => decide (node ∉ kickAssignments sync_node.body)) }

/-! ### The shutdown template (`override_close`)

`RemoteFunctionDefTransformer.override_close` parses a fixed code string and
returns its single top-level definition, the replacement `async def close`.
Below is that parsed template as data. -/

def selfE : Expr := .Name "self"

def warnGrpcMsg : String :=
  "Unable to close grpc_channel. Connection was interrupted on the server side"

def warnHttpMsg : String :=
  "Unable to close http connection. Connection was interrupted on the server side"

/-- `show_warning(message=..., category=UserWarning, stacklevel=5)`. -/
def showWarningCall (msg : String) : Stmt :=
  .ExprStmt (.Call (.Name "show_warning") .nil
    (.cons "message" (.Constant (.str msg))
      (.cons "category" (.Name "UserWarning")
        (.cons "stacklevel" (.Constant (.int 5)) .nil))))

/-- `await self._grpc_channel.close(grace=grpc_grace)`. -/
def grpcCloseCall : Expr :=
  .Await (.Call (.Attribute (.Attribute selfE "_grpc_channel") "close") .nil
    (.cons "grace" (.Name "grpc_grace") .nil))

/-- `await self.http.aclose()`. -/
def httpAcloseCall : Expr :=
  .Await (.Call (.Attribute (.Attribute selfE "http") "aclose") .nil .nil)

/-- The body of the generated `close`: channel close guarded by
`except AttributeError` (warn) and `except RuntimeError` (pass), HTTP close
guarded by `except Exception` (warn), then `self._closed = True`. -/
def closeBody : List Stmt :=
  [ .If (.BoolAnd
          (.Call (.Name "hasattr")
            (.cons selfE (.cons (.Constant (.str "_grpc_channel")) .nil)) .nil)
          (.IsNot (.Attribute selfE "_grpc_channel") (.Constant .none)))
        (.cons (.Try (.cons (.ExprStmt grpcCloseCall) .nil)
                 (.cons "AttributeError" (.cons (showWarningCall warnGrpcMsg) .nil)
                   (.cons "RuntimeError" (.cons .Pass .nil) .nil)))
          .nil)
        .nil,
    .Try (.cons (.ExprStmt httpAcloseCall) .nil)
         (.cons "Exception" (.cons (showWarningCall warnHttpMsg) .nil) .nil),
    .Assign [.Attribute selfE "_closed"] (.Constant (.bool true)) ]

/-- `RemoteFunctionDefTransformer.override_close`: the fixed replacement
`async def close(self, grpc_grace: Optional[float] = None, **kwargs: Any) -> None`
with the template body; it takes no input (the original body is discarded). -/
def override_close : FunctionDef :=
  { name := "close", is_async := true, body := closeBody }

/-! ### Spec-modelled base-class pieces

The base `FunctionDefTransformer` class (in
`tools/async_client_generator/transformers`) and `ast.NodeTransformer` are
referenced by the remote transformer but are not among the provided sources,
so their behaviour is modelled from the spec. -/

/-- The name a call expression targets (`self.upsert(...)` targets `upsert`,
`upsert(...)` targets `upsert`). -/
def funcName : Expr → Option String
  | .Name id => some id
  | .Attribute _ a => some a
  | _ => none

mutual
/-- Modelled from the spec: the base engine's call-site rewrite, missing from
the provided sources — "rewrite every call expression whose target name is
itself a member of `asyncMethods` ... into a suspending call at that call
site; leave all other expressions, control structures, and literals
structurally identical" (spec 4.4). -/
def rewriteExpr (p : Policy) : Expr → Expr
  | .Name id => .Name id
  | .Attribute o a => .Attribute (rewriteExpr p o) a
  | .Constant l => .Constant l
  | .Call f args kwargs =>
      let c := Expr.Call (rewriteExpr p f) (rewriteExprList p args) (rewriteKwargs p kwargs)
      match funcName f with
      | some n => if n ∈ p.async_methods then .Await c else c
      | none => c
  | .Await e => .Await (rewriteExpr p e)
  | .BoolAnd a b => .BoolAnd (rewriteExpr p a) (rewriteExpr p b)
  | .IsNot a b => .IsNot (rewriteExpr p a) (rewriteExpr p b)

def rewriteExprList (p : Policy) : ExprList → ExprList
  | .nil => .nil
  | .cons e tl => .cons (rewriteExpr p e) (rewriteExprList p tl)

def rewriteKwargs (p : Policy) : KwargList → KwargList
  | .nil => .nil
  | .cons k v tl => .cons k (rewriteExpr p v) (rewriteKwargs p tl)
end

def rewriteTarget (p : Policy) : Target → Target
  | .Name id => .Name id
  | .Attribute o a => .Attribute (rewriteExpr p o) a
  | .Subscript o i => .Subscript (rewriteExpr p o) (rewriteExpr p i)

mutual
/-- Modelled from the spec: the statement part of the base engine's rewrite
(spec 4.4) — call sites are rewritten, everything else is kept structurally
identical. -/
def rewriteStmt (p : Policy) : Stmt → Stmt
  | .Assign ts v => .Assign (ts.map (rewriteTarget p)) (rewriteExpr p v)
  | .AnnAssign t a v => .AnnAssign (rewriteTarget p t) (rewriteExpr p a) (v.map (rewriteExpr p))
  | .ExprStmt e => .ExprStmt (rewriteExpr p e)
  | .Try b hs => .Try (rewriteStmtList p b) (rewriteHandlers p hs)
  | .If c t e => .If (rewriteExpr p c) (rewriteStmtList p t) (rewriteStmtList p e)
  | .Pass => .Pass

def rewriteStmtList (p : Policy) : StmtList → StmtList
  | .nil => .nil
  | .cons s tl => .cons (rewriteStmt p s) (rewriteStmtList p tl)

def rewriteHandlers (p : Policy) : HandlerList → HandlerList
  | .nil => .nil
  | .cons k b tl => .cons k (rewriteStmtList p b) (rewriteHandlers p tl)
end

/-- Modelled from the spec: the base engine's conversion of a `Converted`
method, missing from the provided sources — "rewrite the signature to a
suspending calling convention" and rewrite the body's call sites; "applying
it to an already-converted method is a no-op (detectable because the
signature is already in suspending form)" (spec 4.4). -/
def convertMethod (p : Policy) (m : FunctionDef) : FunctionDef :=
  if m.is_async then m
  else { m with is_async := true, body := m.body.map (rewriteStmt p) }

/-- Modelled from the spec: `ast.NodeTransformer.generic_visit` applied to
the stripped constructor, missing from the provided sources — construction
rewriting leaves "every other statement — including blocking-transport field
bindings and business setup — untouched and in original order" (spec 4.2). -/
def generic_visit (fd : FunctionDef) : FunctionDef := fd

/-- Modelled from the spec: the base class `FunctionDefTransformer`'s
`visit_FunctionDef`, missing from the provided sources — a method for which
`self._keep_sync(name)` holds "passes through unmodified" (spec 4.1 rule 4);
otherwise it is delegated to the generic conversion engine (rule 5). -/
def base_visit_FunctionDef (p : Policy) (node : FunctionDef) : Option FunctionDef :=
  if keepSyncB p node.name then some node
  else some (convertMethod p node)

/-- `RemoteFunctionDefTransformer.visit_FunctionDef`: exclusion first
(returning `None` removes the method), then the `__init__` and `close`
overrides, then delegation to the base class. -/
def visit_FunctionDef (p : Policy) (sync_node : FunctionDef) : Option FunctionDef :=
  if sync_node.name ∈ p.exclude_methods then none
  else if sync_node.name = "__init__" then some (generic_visit (override_init sync_node))
  else if sync_node.name = "close" then some override_close
  else base_visit_FunctionDef p sync_node

/-- Modelled from the spec: the driver walk over the class body, missing from
the provided sources (`ast.NodeTransformer` traversal) — it "walks every
method definition in the source class" and assembles the output sequence,
which "mirrors the input except that excluded methods are omitted and
overridden methods are replaced in place" (spec 2, 3). -/
def transformClass (p : Policy) (c : ClassDef) : ClassDef :=
  { body := c.body.filterMap (visit_FunctionDef p) }

/-! ### The spec's classifier (for the refinement claims) -/

/-- The spec's derived `MethodClassification` (spec 3). -/
inductive MethodClassification where
  | excluded
  | constructionOverride
  | shutdownOverride
  | keptSync
  | converted
deriving DecidableEq, Repr

/-- Follows the spec's words (spec 4.1): the classifier's fixed precedence
order, first match wins.  Written from the spec, to be compared with the
code's `visit_FunctionDef`. -/
def classifySpec (p : Policy) (name : String) : MethodClassification :=
  if name ∈ p.exclude_methods then .excluded
  else if name = "__init__" then .constructionOverride
  else if name = "close" then .shutdownOverride
  else if name ∈ p.keep_sync ∨ name ∉ p.async_methods then .keptSync
  else .converted

/-- The rule each classification applies (spec 4.1–4.4). -/
def applyRule (p : Policy) : MethodClassification → FunctionDef → Option FunctionDef
  | .excluded, _ => none
  | .constructionOverride, m => some (generic_visit (override_init m))
  | .shutdownOverride, _ => some override_close
  | .keptSync, m => some m
  | .converted, m => some (convertMethod p m)

/-! ### An operational semantics for the generated shutdown body

Modelled from the spec: the generated artifact's runtime (spec 4.3, 5, 7) is
not part of the generator's sources; we give the statement fragment used by
the shutdown template a small-step-free, direct interpreter.  Resource-close
calls are resolved by an oracle that may make every invocation raise. -/

/-- Exception kinds a resource close can raise: `AttributeError`,
`RuntimeError`, or any other error (`Exception` subclass). -/
inductive ExcKind where
  | attributeError
  | runtimeError
  | otherError
deriving DecidableEq, Repr

/-- The runtime state of the generated client during `close`: whether
`self._grpc_channel` exists, whether it is `None`, the `self._closed` flag,
and the warnings emitted so far. -/
structure RtState where
  hasGrpcChannel : Bool
  grpcChannelIsNone : Bool
  closed : Bool
  warnings : List String
deriving DecidableEq, Repr

/-- The behaviour of the two externally-owned resource closes: `none` means
the call returns normally, `some k` means it raises `k`. -/
structure Oracle where
  grpcClose : Option ExcKind
  httpAclose : Option ExcKind
deriving DecidableEq, Repr

/-- Which handler clause catches which exception kind: `except Exception`
catches every kind, the named clauses catch exactly their own kind. -/
def catches (handler : String) : ExcKind → Bool
  | .attributeError => handler == "Exception" || handler == "AttributeError"
  | .runtimeError => handler == "Exception" || handler == "RuntimeError"
  | .otherError => handler == "Exception"

/-- Runtime values the shutdown body's expressions produce. -/
inductive Value where
  | none
  | bool (b : Bool)
deriving DecidableEq, Repr

/-- Outcome of evaluating an expression: a value, a raised exception, or
stuck (an expression shape outside the modelled fragment). -/
inductive EvalOut where
  | ok (v : Value) (s : RtState)
  | exc (k : ExcKind) (s : RtState)
  | stuck
deriving DecidableEq, Repr

/-- Evaluate the expression shapes occurring in the shutdown template:
`hasattr(self, "_grpc_channel")`, `self._grpc_channel is not None`,
short-circuit `and`, the two awaited close calls (resolved by the oracle),
and `show_warning(...)` (appends a warning). -/
def evalExpr (o : Oracle) (st : RtState) : Expr → EvalOut
  | .Constant .none => .ok .none st
  | .Constant (.bool b) => .ok (.bool b) st
  | .Call (.Name "hasattr") (.cons (.Name "self") (.cons (.Constant (.str a)) .nil)) .nil =>
      if a = "_grpc_channel" then .ok (.bool st.hasGrpcChannel) st else .stuck
  | .IsNot (.Attribute (.Name "self") "_grpc_channel") (.Constant .none) =>
      if st.hasGrpcChannel then .ok (.bool (!st.grpcChannelIsNone)) st
      else .exc .attributeError st
  | .BoolAnd a b =>
      match evalExpr o st a with
      | .ok (.bool false) s => .ok (.bool false) s
      | .ok (.bool true) s => evalExpr o s b
      | .ok .none _ => .stuck
      | .exc k s => .exc k s
      | .stuck => .stuck
  | .Await (.Call (.Attribute (.Attribute (.Name "self") "_grpc_channel") "close")
      .nil (.cons "grace" _ .nil)) =>
      if st.hasGrpcChannel then
        match o.grpcClose with
        | Option.none => .ok .none st
        | some k => .exc k st
      else .exc .attributeError st
  | .Await (.Call (.Attribute (.Attribute (.Name "self") "http") "aclose") .nil .nil) =>
      match o.httpAclose with
      | Option.none => .ok .none st
      | some k => .exc k st
  | .Call (.Name "show_warning") .nil (.cons "message" (.Constant (.str m)) _) =>
      .ok .none { st with warnings := st.warnings ++ [m] }
  | _ => .stuck

/-- Outcome of executing statements: normal completion, an escaping
exception, or stuck. -/
inductive ExecOut where
  | ok (s : RtState)
  | exc (k : ExcKind) (s : RtState)
  | stuck
deriving DecidableEq, Repr

mutual
/-- Execute one statement of the modelled fragment. -/
def execStmt (o : Oracle) (st : RtState) : Stmt → ExecOut
  | .ExprStmt e =>
      match evalExpr o st e with
      | .ok _ s => .ok s
      | .exc k s => .exc k s
      | .stuck => .stuck
  | .Assign [.Attribute (.Name "self") "_closed"] (.Constant (.bool b)) =>
      .ok { st with closed := b }
  | .Assign _ _ => .stuck
  | .AnnAssign _ _ _ => .stuck
  | .Pass => .ok st
  | .If c t e =>
      match evalExpr o st c with
      | .ok (.bool true) s => execStmts o s t
      | .ok (.bool false) s => execStmts o s e
      | .ok .none _ => .stuck
      | .exc k s => .exc k s
      | .stuck => .stuck
  | .Try b hs =>
      match execStmts o st b with
      | .ok s => .ok s
      | .exc k s => execHandlers o s k hs
      | .stuck => .stuck

/-- Execute a nested block in order, propagating exceptions. -/
def execStmts (o : Oracle) (st : RtState) : StmtList → ExecOut
  | .nil => .ok st
  | .cons s tl =>
      match execStmt o st s with
      | .ok s' => execStmts o s' tl
      | .exc k s' => .exc k s'
      | .stuck => .stuck

/-- Find the first handler clause that catches the raised kind; an uncaught
exception propagates. -/
def execHandlers (o : Oracle) (st : RtState) (k : ExcKind) : HandlerList → ExecOut
  | .nil => .exc k st
  | .cons kind body tl =>
      if catches kind k then execStmts o st body
      else execHandlers o st k tl
end

/-- Execute a method's top-level body. -/
def execBody (o : Oracle) (st : RtState) : List Stmt → ExecOut
  | [] => .ok st
  | s :: tl =>
      match execStmt o st s with
      | .ok s' => execBody o s' tl
      | .exc k s' => .exc k s'
      | .stuck => .stuck

/-! ### Helper lemmas -/

theorem mem_kickAssignments {body : List Stmt} {s : Stmt} :
    s ∈ kickAssignments body ↔ s ∈ body ∧ isKickAssignment s = true := by
  simp [kickAssignments, List.mem_filter]

/-- Membership in the kick list is decided by the per-statement predicate, so
the two-phase collect-then-remove equals a one-pass filter. -/
theorem override_init_eq_filter (fd : FunctionDef) :
    override_init fd =
      { fd with body := fd.body.filter (fun s => !isKickAssignment s) } := by
  unfold override_init
  congr 1
  apply List.filter_congr
  intro s hs
  by_cases h : isKickAssignment s = true
  · simp [mem_kickAssignments, hs, h]
  · simp [mem_kickAssignments, hs, h]

theorem keepSyncB_eq_true_iff (p : Policy) (n : String) :
    keepSyncB p n = true ↔ (n ∈ p.keep_sync ∨ n ∉ p.async_methods) := by
  simp [keepSyncB]

theorem convertMethod_name (p : Policy) (m : FunctionDef) :
    (convertMethod p m).name = m.name := by
  unfold convertMethod
  split <;> rfl

theorem convertMethod_is_async (p : Policy) (m : FunctionDef) :
    (convertMethod p m).is_async = true := by
  unfold convertMethod
  split
  · next h => exact h
  · rfl

theorem convertMethod_idem (p : Policy) (m : FunctionDef) :
    convertMethod p (convertMethod p m) = convertMethod p m := by
  unfold convertMethod
  by_cases h : m.is_async = true <;> simp [h]

theorem override_init_name (fd : FunctionDef) :
    (override_init fd).name = fd.name := rfl

theorem visit_name_preserved (p : Policy) (m m' : FunctionDef)
    (h : visit_FunctionDef p m = some m') : m'.name = m.name := by
  unfold visit_FunctionDef base_visit_FunctionDef at h
  split at h
  · exact absurd h (by simp)
  · split at h
    · next hinit =>
        simp only [Option.some.injEq] at h
        subst h
        exact (override_init_name m).trans rfl
    · split at h
      · next hclose =>
          simp only [Option.some.injEq] at h
          subst h
          exact hclose.symm
      · split at h <;> simp only [Option.some.injEq] at h <;> subst h
        · rfl
        · exact convertMethod_name p m

/-! ### Claim theorems -/

/-- C4: the construction override removes exactly the statements (plain or
annotated assignments) whose assignment target is an attribute reference
whose attribute name carries the `aio` marker, leaving every other statement
unchanged and in original relative order; in particular a body with one
marked attribute assignment and one ordinary attribute assignment yields a
body containing only the ordinary assignment in its original position. -/
theorem c4_construction_strip (fd : FunctionDef) :
    (override_init fd).body = fd.body.filter (fun s => !isKickAssignment s) ∧
    override_init
      { name := "__init__", is_async := false,
        body := [Stmt.Assign [Target.Attribute selfE "_aio_grpc_channel"] (Expr.Name "ch"),
                 Stmt.Assign [Target.Attribute selfE "_grpc_channel"] (Expr.Name "ch")] } =
      { name := "__init__", is_async := false,
        body := [Stmt.Assign [Target.Attribute selfE "_grpc_channel"] (Expr.Name "ch")] } := by
  constructor
  · rw [override_init_eq_filter]
  · decide

/-- C8: the construction override inspects only the top-level statements of
the constructor body: a `try` or `if` block — whatever marked assignments it
nests — passes through the strip unchanged; only direct children of the body
are ever removed. -/
theorem c8_nested_blocks_untouched (fd : FunctionDef) :
    (∀ (b : StmtList) (hs : HandlerList),
        ((Stmt.Try b hs) ∈ (override_init fd).body ↔ (Stmt.Try b hs) ∈ fd.body)) ∧
    (∀ (c : Expr) (t e : StmtList),
        ((Stmt.If c t e) ∈ (override_init fd).body ↔ (Stmt.If c t e) ∈ fd.body)) := by
  rw [override_init_eq_filter]
  constructor
  · intro b hs
    simp [List.mem_filter, isKickAssignment]
  · intro c t e
    simp [List.mem_filter, isKickAssignment]

/-- C9: a plain assignment with several targets is removed whole as soon as
one target is an attribute reference whose name carries the `aio` marker,
dropping the bindings to the other, unmarked targets with it. -/
theorem c9_multi_target_removed (fd : FunctionDef) (ts : List Target) (v : Expr)
    (hmem : Stmt.Assign ts v ∈ fd.body)
    (hmark : ∃ t ∈ ts, ∃ obj a, t = Target.Attribute obj a ∧ containsAio a = true) :
    Stmt.Assign ts v ∉ (override_init fd).body := by
  rw [override_init_eq_filter]
  obtain ⟨t, ht, obj, a, rfl, ha⟩ := hmark
  have hk : isKickAssignment (Stmt.Assign ts v) = true := by
    simp only [isKickAssignment, List.any_eq_true]
    exact ⟨_, ht, ha⟩
  simp [List.mem_filter, hk]

/-- C9 witness: a concrete two-target assignment
(`self._aio_channel = backup = ch` style) containing one marked attribute
target is removed whole. -/
theorem c9_witness :
    Stmt.Assign [Target.Attribute selfE "_aio_channel", Target.Name "backup"]
        (Expr.Name "ch") ∉
      (override_init
        { name := "__init__", is_async := false,
          body := [Stmt.Assign
            [Target.Attribute selfE "_aio_channel", Target.Name "backup"]
            (Expr.Name "ch")] }).body :=
  c9_multi_target_removed _ _ _ (by decide)
    ⟨Target.Attribute selfE "_aio_channel", by decide, selfE, "_aio_channel", rfl, by decide⟩

/-- C10: the marker test is substring containment of `"aio"`: an
attribute-targeted assignment is removed iff the attribute name contains
`"aio"` anywhere; an attribute such as `kaios_flag`, unrelated to the
asynchronous transport, is removed too. -/
theorem c10_marker_is_substring (fd : FunctionDef) (obj : Expr) (a : String) (v : Expr)
    (hmem : Stmt.Assign [Target.Attribute obj a] v ∈ fd.body) :
    ((Stmt.Assign [Target.Attribute obj a] v ∉ (override_init fd).body) ↔
      List.IsInfix "aio".toList a.toList) ∧
    (override_init
      { name := "__init__", is_async := false,
        body := [Stmt.Assign [Target.Attribute selfE "kaios_flag"] (Expr.Name "x")] }).body
      = [] := by
  refine ⟨?_, by decide⟩
  rw [override_init_eq_filter]
  simp [List.mem_filter, hmem, isKickAssignment, containsAio]

/-- C10 witness: an attribute name without the substring (`portfolio`) is
kept — instantiating the iff at a concrete input. -/
theorem c10_witness :
    ((Stmt.Assign [Target.Attribute selfE "portfolio"] (Expr.Name "x") ∉
      (override_init
        { name := "__init__", is_async := false,
          body := [Stmt.Assign [Target.Attribute selfE "portfolio"] (Expr.Name "x")] }).body) ↔
      List.IsInfix "aio".toList "portfolio".toList) :=
  (c10_marker_is_substring
    { name := "__init__", is_async := false,
      body := [Stmt.Assign [Target.Attribute selfE "portfolio"] (Expr.Name "x")] }
    selfE "portfolio" (Expr.Name "x") (by decide)).1

/-- C5 counterexample: a constructor whose assignment target is a plain name
(not an attribute reference) does not make the generation fail — the
transformer returns an output in which the statement is untouched. -/
theorem c5_counterexample :
    visit_FunctionDef { keep_sync := [], exclude_methods := [], async_methods := [] }
      { name := "__init__", is_async := false,
        body := [Stmt.Assign [Target.Name "channel"] (Expr.Name "make_aio_channel")] } =
      some { name := "__init__", is_async := false,
             body := [Stmt.Assign [Target.Name "channel"] (Expr.Name "make_aio_channel")] } := by
  decide

/-- C5 amended: the construction override is total and never fails: the
generation run always produces an output for the constructor, and every
statement none of whose assignment targets is an attribute reference passes
through the strip unchanged (it is skipped, not rejected). -/
theorem c5_no_failure (p : Policy) (fd : FunctionDef)
    (hname : fd.name = "__init__") (hexc : fd.name ∉ p.exclude_methods) :
    (∃ fd' : FunctionDef, visit_FunctionDef p fd = some fd') ∧
    (∀ s ∈ fd.body,
      (∀ ts v, s = Stmt.Assign ts v → ∀ t ∈ ts, ∀ obj a, t ≠ Target.Attribute obj a) →
      (∀ t ann v, s = Stmt.AnnAssign t ann v → ∀ obj a, t ≠ Target.Attribute obj a) →
      s ∈ (override_init fd).body) := by
  have hexc' : "__init__" ∉ p.exclude_methods := hname ▸ hexc
  constructor
  · refine ⟨override_init fd, ?_⟩
    simp [visit_FunctionDef, hexc', hname, generic_visit]
  · intro s hs hassign hann
    rw [override_init_eq_filter]
    simp only [List.mem_filter, Bool.not_eq_true']
    refine ⟨hs, ?_⟩
    cases s with
    | Assign ts v =>
        simp only [isKickAssignment, List.any_eq_false]
        intro t ht
        cases t with
        | Attribute obj a => exact absurd rfl (hassign ts v rfl _ ht obj a)
        | Name id => simp
        | Subscript o i => simp
    | AnnAssign t ann v =>
        cases t with
        | Attribute obj a => exact absurd rfl (hann _ ann v rfl obj a)
        | Name id => rfl
        | Subscript o i => rfl
    | ExprStmt e => rfl
    | Try b hs' => rfl
    | If c t e => rfl
    | Pass => rfl

/-- C5 witness: the amended claim instantiated at a concrete constructor with
a plain-name assignment target. -/
theorem c5_witness :
    ∃ fd' : FunctionDef,
      visit_FunctionDef { keep_sync := [], exclude_methods := [], async_methods := [] }
        { name := "__init__", is_async := false,
          body := [Stmt.Assign [Target.Name "channel"] (Expr.Name "make_aio_channel")] } =
        some fd' :=
  (c5_no_failure { keep_sync := [], exclude_methods := [], async_methods := [] }
    { name := "__init__", is_async := false,
      body := [Stmt.Assign [Target.Name "channel"] (Expr.Name "make_aio_channel")] }
    rfl (by decide)).1

/-- C1: for a method that is neither excluded nor `__init__` nor `close`
(and whose input signature is synchronous), the method passes through
unmodified iff its name is in `keep_sync` or absent from `async_methods`;
otherwise it is converted (to a genuinely different, suspending method); and
a name in both `keep_sync` and `async_methods` is kept synchronous. -/
theorem c1_keep_sync_wins (p : Policy) (m : FunctionDef)
    (hexc : m.name ∉ p.exclude_methods) (hinit : m.name ≠ "__init__")
    (hclose : m.name ≠ "close") (hsync : m.is_async = false) :
    (visit_FunctionDef p m = some m ↔
      (m.name ∈ p.keep_sync ∨ m.name ∉ p.async_methods)) ∧
    (m.name ∈ p.async_methods → m.name ∉ p.keep_sync →
      visit_FunctionDef p m = some (convertMethod p m) ∧ convertMethod p m ≠ m) ∧
    (m.name ∈ p.keep_sync → m.name ∈ p.async_methods →
      visit_FunctionDef p m = some m) := by
  have hvisit : visit_FunctionDef p m = base_visit_FunctionDef p m := by
    simp [visit_FunctionDef, hexc, hinit, hclose]
  have hne : convertMethod p m ≠ m := by
    intro heq
    rw [← heq] at hsync
    rw [convertMethod_is_async p m] at hsync
    exact Bool.noConfusion hsync
  refine ⟨?_, ?_, ?_⟩
  · constructor
    · intro h
      by_contra hks
      rw [hvisit] at h
      unfold base_visit_FunctionDef at h
      rw [if_neg (by simpa [keepSyncB_eq_true_iff] using hks)] at h
      exact hne (Option.some.injEq _ _ ▸ h)
    · intro hks
      rw [hvisit]
      unfold base_visit_FunctionDef
      rw [if_pos ((keepSyncB_eq_true_iff p m.name).mpr hks)]
  · intro hin hnks
    have hks : ¬(m.name ∈ p.keep_sync ∨ m.name ∉ p.async_methods) := by
      intro h
      rcases h with h | h
      · exact hnks h
      · exact h hin
    refine ⟨?_, hne⟩
    rw [hvisit]
    unfold base_visit_FunctionDef
    rw [if_neg (by simpa [keepSyncB_eq_true_iff] using hks)]
  · intro hks _
    rw [hvisit]
    unfold base_visit_FunctionDef
    rw [if_pos ((keepSyncB_eq_true_iff p m.name).mpr (Or.inl hks))]

/-- C1 witness: with `keep_sync = ["search"]`, `async_methods = ["search"]`,
the method `search` (listed in both) passes through unmodified. -/
theorem c1_witness :
    visit_FunctionDef
      { keep_sync := ["search"], exclude_methods := [], async_methods := ["search"] }
      { name := "search", is_async := false, body := [] } =
      some { name := "search", is_async := false, body := [] } :=
  (c1_keep_sync_wins
    { keep_sync := ["search"], exclude_methods := [], async_methods := ["search"] }
    { name := "search", is_async := false, body := [] }
    (by decide) (by decide) (by decide) rfl).2.2 (by decide) (by decide)

/-- C2: the output class's method sequence is the input sequence filtered and
mapped in place: a method is dropped exactly when its name is in
`exclude_methods` (even `__init__`/`close`), names are preserved, so no
excluded name appears in the output, and `__init__`/`close` are replaced in
place by their override rewrites. -/
theorem c2_output_sequence (p : Policy) (c : ClassDef) :
    (transformClass p c).body = c.body.filterMap (visit_FunctionDef p) ∧
    (∀ m : FunctionDef, visit_FunctionDef p m = none ↔ m.name ∈ p.exclude_methods) ∧
    (∀ m m' : FunctionDef, visit_FunctionDef p m = some m' → m'.name = m.name) ∧
    (∀ m' ∈ (transformClass p c).body, m'.name ∉ p.exclude_methods) ∧
    (∀ m : FunctionDef, m.name = "__init__" → m.name ∉ p.exclude_methods →
      visit_FunctionDef p m = some (override_init m)) ∧
    (∀ m : FunctionDef, m.name = "close" → m.name ∉ p.exclude_methods →
      visit_FunctionDef p m = some override_close) := by
  have hnone : ∀ m : FunctionDef,
      visit_FunctionDef p m = none ↔ m.name ∈ p.exclude_methods := by
    intro m
    constructor
    · intro h
      by_contra hexc
      unfold visit_FunctionDef base_visit_FunctionDef at h
      rw [if_neg hexc] at h
      split at h
      · exact Option.noConfusion h
      · split at h
        · exact Option.noConfusion h
        · split at h <;> exact Option.noConfusion h
    · intro hexc
      unfold visit_FunctionDef
      rw [if_pos hexc]
  refine ⟨rfl, hnone, visit_name_preserved p, ?_, ?_, ?_⟩
  · intro m' hm'
    obtain ⟨m, hm, hv⟩ := List.mem_filterMap.mp hm'
    intro hbad
    have : visit_FunctionDef p m = none := by
      apply (hnone m).mpr
      rw [← visit_name_preserved p m m' hv]
      exact hbad
    rw [this] at hv
    exact Option.noConfusion hv
  · intro m hname hexc
    have hexc' : "__init__" ∉ p.exclude_methods := hname ▸ hexc
    simp [visit_FunctionDef, hname, hexc', generic_visit]
  · intro m hname hexc
    have hexc' : "close" ∉ p.exclude_methods := hname ▸ hexc
    simp [visit_FunctionDef, hname, hexc']

/-- C2 witness: with `exclude_methods = ["delete_all"]`, the method
`delete_all` is dropped — instantiating the drop-iff-excluded part. -/
theorem c2_witness :
    visit_FunctionDef
      { keep_sync := [], exclude_methods := ["delete_all"], async_methods := [] }
      { name := "delete_all", is_async := false, body := [] } = none :=
  ((c2_output_sequence
      { keep_sync := [], exclude_methods := ["delete_all"], async_methods := [] }
      { body := [] }).2.1
    { name := "delete_all", is_async := false, body := [] }).mpr (by decide)

/-- C6: on a method classified `Converted`, the transformer delegates to the
generic conversion rewrite, and applying that rewrite twice produces the same
output as applying it once (the second application is a no-op, detected by
the already-suspending signature). -/
theorem c6_conversion_idempotent (p : Policy) (m : FunctionDef)
    (hconv : classifySpec p m.name = MethodClassification.converted) :
    visit_FunctionDef p m = some (convertMethod p m) ∧
    convertMethod p (convertMethod p m) = convertMethod p m := by
  unfold classifySpec at hconv
  split at hconv
  · exact absurd hconv (by simp)
  · next hexc =>
    split at hconv
    · exact absurd hconv (by simp)
    · next hinit =>
      split at hconv
      · exact absurd hconv (by simp)
      · next hclose =>
        split at hconv
        · exact absurd hconv (by simp)
        · next hks =>
          refine ⟨?_, convertMethod_idem p m⟩
          unfold visit_FunctionDef base_visit_FunctionDef
          rw [if_neg hexc, if_neg hinit, if_neg hclose,
            if_neg (by simpa [keepSyncB_eq_true_iff] using hks)]

/-- C6 witness: the idempotence instantiated on the converted method `upsert`
containing a call to another convertible method. -/
theorem c6_witness :
    convertMethod { keep_sync := [], exclude_methods := [], async_methods := ["upsert"] }
      (convertMethod { keep_sync := [], exclude_methods := [], async_methods := ["upsert"] }
        { name := "upsert", is_async := false,
          body := [Stmt.ExprStmt
            (Expr.Call (Expr.Attribute (Expr.Name "self") "upsert") ExprList.nil
              KwargList.nil)] }) =
      convertMethod { keep_sync := [], exclude_methods := [], async_methods := ["upsert"] }
        { name := "upsert", is_async := false,
          body := [Stmt.ExprStmt
            (Expr.Call (Expr.Attribute (Expr.Name "self") "upsert") ExprList.nil
              KwargList.nil)] } :=
  (c6_conversion_idempotent
    { keep_sync := [], exclude_methods := [], async_methods := ["upsert"] }
    { name := "upsert", is_async := false,
      body := [Stmt.ExprStmt
        (Expr.Call (Expr.Attribute (Expr.Name "self") "upsert") ExprList.nil
          KwargList.nil)] }
    (by decide)).2

/-- C7: classification is a total, deterministic function of the method name
and the policy: the transformer's `visit_FunctionDef` coincides with applying
the rule selected by the spec's precedence-ordered classifier to the method,
and the class walk handles each method independently of its position and of
the surrounding methods. -/
theorem c7_classification_refinement :
    (∀ (p : Policy) (m : FunctionDef),
        visit_FunctionDef p m = applyRule p (classifySpec p m.name) m) ∧
    (∀ (p : Policy) (pre post : List FunctionDef) (m : FunctionDef),
        (transformClass p { body := pre ++ m :: post }).body =
          (transformClass p { body := pre }).body ++
            ((visit_FunctionDef p m).toList ++
              (transformClass p { body := post }).body)) := by
  constructor
  · intro p m
    unfold visit_FunctionDef base_visit_FunctionDef classifySpec applyRule
    by_cases h1 : m.name ∈ p.exclude_methods
    · rw [if_pos h1, if_pos h1]
    · rw [if_neg h1, if_neg h1]
      by_cases h2 : m.name = "__init__"
      · rw [if_pos h2, if_pos h2]
      · rw [if_neg h2, if_neg h2]
        by_cases h3 : m.name = "close"
        · rw [if_pos h3, if_pos h3]
        · rw [if_neg h3, if_neg h3]
          by_cases h4 : m.name ∈ p.keep_sync ∨ m.name ∉ p.async_methods
          · rw [if_pos ((keepSyncB_eq_true_iff p m.name).mpr h4), if_pos h4]
          · rw [if_neg (by simpa [keepSyncB_eq_true_iff] using h4), if_neg h4]
  · intro p pre post m
    show (pre ++ m :: post).filterMap (visit_FunctionDef p) = _
    rw [List.filterMap_append, List.filterMap_cons]
    cases h : visit_FunctionDef p m <;> simp [transformClass]

/-- C3 counterexample: if the channel close raises an error of a kind other
than attribute-not-found or invalid-runtime-state (e.g. a `ValueError`), the
inner `try` of the generated shutdown body does not catch it: the exception
escapes to the caller and the closed flag stays false. -/
theorem c3_counterexample :
    execBody { grpcClose := some ExcKind.otherError, httpAclose := Option.none }
      { hasGrpcChannel := true, grpcChannelIsNone := false, closed := false, warnings := [] }
      closeBody =
      ExecOut.exc ExcKind.otherError
        { hasGrpcChannel := true, grpcChannelIsNone := false, closed := false,
          warnings := [] } := by
  rfl

/-- C3 amended: for every input shutdown method the override produces the one
fixed replacement body, which guards the channel close with the
attribute-not-found (warn) and invalid-runtime-state (suppress) handlers,
guards the HTTP close against any error (warn), and ends by unconditionally
setting the closed flag; when executed, provided every raise of the channel
close is of one of its two guarded kinds (the HTTP close may raise anything),
the closed flag ends true and no exception escapes to the caller. -/
theorem c3_shutdown_guarantee :
    (∀ (p : Policy) (fd : FunctionDef), fd.name = "close" →
        fd.name ∉ p.exclude_methods →
        visit_FunctionDef p fd = some override_close) ∧
    override_close.body = closeBody ∧
    closeBody.getLast? =
      some (Stmt.Assign [Target.Attribute selfE "_closed"]
        (Expr.Constant (Lit.bool true))) ∧
    (∀ (o : Oracle) (st : RtState), o.grpcClose ≠ some ExcKind.otherError →
      ∃ st' : RtState, execBody o st closeBody = ExecOut.ok st' ∧ st'.closed = true) := by
  refine ⟨?_, rfl, by decide, ?_⟩
  · intro p fd hname hexc
    have hexc' : "close" ∉ p.exclude_methods := hname ▸ hexc
    simp [visit_FunctionDef, hname, hexc']
  · rintro ⟨g, h⟩ ⟨hg, hn, c, w⟩ hne
    rcases g with _ | k1 <;> rcases h with _ | k2 <;> cases hg <;> cases hn
    all_goals try cases k1
    all_goals try cases k2
    all_goals first
      | exact ⟨_, rfl, rfl⟩
      | exact absurd rfl hne

/-- C3 witness: the amended guarantee instantiated with both closes raising
on their invocation (the channel close an attribute-not-found error, the HTTP
close an arbitrary other error): the body still completes with the closed
flag true, and the `close` method of a concrete class is replaced by the
fixed template. -/
theorem c3_witness :
    (visit_FunctionDef { keep_sync := [], exclude_methods := [], async_methods := [] }
      { name := "close", is_async := false, body := [] } = some override_close) ∧
    ∃ st' : RtState,
      execBody { grpcClose := some ExcKind.attributeError,
                 httpAclose := some ExcKind.otherError }
        { hasGrpcChannel := true, grpcChannelIsNone := false, closed := false,
          warnings := [] }
        closeBody = ExecOut.ok st' ∧ st'.closed = true :=
  ⟨c3_shutdown_guarantee.1 { keep_sync := [], exclude_methods := [], async_methods := [] }
      { name := "close", is_async := false, body := [] } rfl (by decide),
   c3_shutdown_guarantee.2.2.2
      { grpcClose := some ExcKind.attributeError, httpAclose := some ExcKind.otherError }
      { hasGrpcChannel := true, grpcChannelIsNone := false, closed := false,
        warnings := [] }
      (by decide)⟩

end AsyncGen
